import Mathlib

/-!
Shallow embedding of `src/ecs/spawn.rs` (the `Spawn` composable of the
actuate ECS integration) together with proofs about its reconciliation,
hook, hierarchy and liveness-guard behaviour.

Entities are natural numbers.  The world's entity allocator is a counter
`nextId`; every side effect performed against the world during an
evaluation pass is recorded in an event trace, and observer registrations
with the world's event system are recorded in `attached`.

User-supplied callbacks (insert hooks, the one-shot `on_spawn` callback,
observers) are identified by natural-number labels: running a callback is
modelled as logging the corresponding event, which is exactly the
information the ordering / counting claims are about.

Liveness guards (`Arc<Mutex<bool>>` in the source) live in a little heap
`GuardEnv`: a list of booleans indexed by allocation order, so that the
sharing (or non-sharing) of one guard cell between a `Spawn` value and the
observer closures it registered is represented faithfully.
-/

namespace Actuate

abbrev Entity := Nat

abbrev GuardId := Nat

/-- Heap of allocated liveness-guard cells; `vals.getD g false` is the
current value of guard `g`. -/
structure GuardEnv where
  vals : List Bool
  deriving DecidableEq, Repr

/-- Allocate a fresh shared guard cell, as `Arc::new(Mutex::new(b))` does. -/
def GuardEnv.alloc (env : GuardEnv) (b : Bool) : GuardEnv × GuardId :=
  (⟨env.vals ++ [b]⟩, env.vals.length)

/-- Read a guard cell, as `*guard.lock().unwrap()` does. -/
def GuardEnv.read (env : GuardEnv) (g : GuardId) : Bool :=
  env.vals.getD g false

/-- Overwrite a guard cell, as `*guard.lock().unwrap() = b` does. -/
def GuardEnv.write (env : GuardEnv) (g : GuardId) (b : Bool) : GuardEnv :=
  ⟨env.vals.set g b⟩

/-- One observable side effect against the ECS world. -/
inductive Ev where
  | created (e : Entity) (bundle : Nat)
  | updated (e : Entity) (bundle : Nat)
  | onInsertRun (hook : Nat) (e : Entity)
  | observerAttached (obs : Nat) (e : Entity)
  | onAddRun (hook : Nat) (e : Entity)
  | childAdded (parent : Entity) (child : Entity)
  deriving DecidableEq, Repr

/-- An observer closure as pushed by `Spawn::observe`: the user callback
(label `obs`) together with the guard cell the closure captured, namely
`self.observer_guard.clone()` at registration time. -/
structure ObserverRecord where
  obs : Nat
  guard : GuardId
  deriving DecidableEq, Repr

/-- The ECS world: an entity allocator, the observers registered with its
event system (via `EntityWorldMut::observe`), and the trace of effects. -/
structure World where
  nextId : Nat
  attached : List (Entity × ObserverRecord)
  trace : List Ev
  deriving DecidableEq, Repr

/-- A fresh world whose next allocated entity id is `k`. -/
def World.init (k : Nat) : World :=
  ⟨k, [], []⟩

/-- The `Spawn` composable struct from the source, field for field.
`spawn_fn` is the boxed `Fn(&mut World, &mut Option<Entity>)`;
`on_add` models the `Cell<Option<OnAddFn>>` slot. -/
structure Spawn (C : Type) where
  spawn_fn : World → Option Entity → World × Option Entity
  content : C
  target : Option Entity
  observer_fns : List ObserverRecord
  on_add : Option Nat
  on_insert : List Nat
  observer_guard : GuardId

/-- The closure `spawn` installs as `spawn_fn`: if the cached cell holds an
entity, insert the bundle into it (update); otherwise spawn a new entity
with the bundle and write its id back into the cell. -/
def spawn_fn_of (bundle : Nat) : World → Option Entity → World × Option Entity :=
  fun world cell =>
    match cell with
    | some entity =>
      ({ world with trace := world.trace ++ [Ev.updated entity bundle] }, some entity)
    | none =>
      ({ world with
          nextId := world.nextId + 1,
          trace := world.trace ++ [Ev.created world.nextId bundle] },
       some world.nextId)

/-- The `spawn` constructor: fresh guard allocated `true`, empty hook
registry, no target, unit content. -/
def spawn (bundle : Nat) (env : GuardEnv) : Spawn Unit × GuardEnv :=
  let p := env.alloc true
  ({ spawn_fn := spawn_fn_of bundle
     content := ()
     target := none
     observer_fns := []
     observer_guard := p.2
     on_add := none
     on_insert := [] }, p.1)

variable {C C2 : Type}

/-- Builder `Spawn::target`: set the explicit target entity. -/
def Spawn.setTarget (s : Spawn C) (t : Entity) : Spawn C :=
  { s with target := some t }

/-- Builder `Spawn::content`: replace the content, keeping every other
field except the observer guard, which is replaced by a freshly allocated
cell initialized to `false` (`Arc::new(Mutex::new(false))` in the source). -/
def Spawn.setContent (s : Spawn C) (c : C2) (env : GuardEnv) : Spawn C2 × GuardEnv :=
  let p := env.alloc false
  ({ spawn_fn := s.spawn_fn
     content := c
     target := s.target
     observer_fns := s.observer_fns
     on_add := s.on_add
     observer_guard := p.2
     on_insert := s.on_insert }, p.1)

/-- Builder `Spawn::on_spawn`: `self.on_add.set(Some(Box::new(f)))` —
overwrites whatever one-shot callback was stored before. -/
def Spawn.on_spawn (s : Spawn C) (hook : Nat) : Spawn C :=
  { s with on_add := some hook }

/-- Builder `Spawn::on_insert`: push a repeatable insert hook. -/
def Spawn.onInsertPush (s : Spawn C) (hook : Nat) : Spawn C :=
  { s with on_insert := s.on_insert ++ [hook] }

/-- Builder `Spawn::observe`: push an observer closure capturing the user
callback and a clone of the CURRENT `observer_guard`. -/
def Spawn.observe (s : Spawn C) (obs : Nat) : Spawn C :=
  { s with observer_fns := s.observer_fns ++ [⟨obs, s.observer_guard⟩] }

/-- Outcome of one invocation of an observer trampoline by the world's
event dispatch. -/
inductive ObserverOutcome where
  | panicked
  | ran (obs : Nat)
  deriving DecidableEq, Repr

/-- The trampoline closure built inside `Spawn::observe`: lock the captured
guard; if it reads `false`, panic ("Actuate observer called after its scope
was dropped"); otherwise run the user observer logic. -/
def trampoline (r : ObserverRecord) (env : GuardEnv) : ObserverOutcome :=
  if env.read r.guard then ObserverOutcome.ran r.obs else ObserverOutcome.panicked

/-- The `for f in &cx.me().on_insert` loop of `Spawn::compose`: run every
insert hook, in registration order, against the bound entity. -/
def run_on_insert (hooks : List Nat) (e : Entity) (world : World) : World :=
  hooks.foldl (fun w hook => { w with trace := w.trace ++ [Ev.onInsertRun hook e] }) world

/-- The `for f in &cx.me().observer_fns` loop of `Spawn::compose`: register
every observer trampoline with the world's event system, in order. -/
def attach_observers (obs : List ObserverRecord) (e : Entity) (world : World) : World :=
  obs.foldl
    (fun w r =>
      { w with
          attached := w.attached ++ [(e, r)],
          trace := w.trace ++ [Ev.observerAttached r.obs e] })
    world

/-- The `if let Some(f) = cx.me().on_add.take()` step of `Spawn::compose`:
take the one-shot callback out of the slot and, if one was there, run it.
Returns the world and the emptied slot. -/
def fire_on_add (slot : Option Nat) (e : Entity) (world : World) : World × Option Nat :=
  match slot with
  | some hook => ({ world with trace := world.trace ++ [Ev.onAddRun hook e] }, none)
  | none => (world, none)

/-- The closure `Spawn::compose` hands to `use_bundle_inner`, acting on the
world and the cached entity cell: force the cell to the explicit target if
one is configured, run `spawn_fn` (create or update), run the insert hooks,
and — on the initial pass only — attach observers, fire the one-shot
`on_add` callback, and clear the initial flag.  Returns the new world, the
new cell, the new initial flag, and the new `on_add` slot. -/
def bundle_closure (sp : Spawn C) (is_init : Bool) (world : World) (cell : Option Entity) :
    World × Option Entity × Bool × Option Nat :=
  let cell :=
    match sp.target with
    | some t => some t
    | none => cell
  let wc := sp.spawn_fn world cell
  let world := wc.1
  let cell := wc.2
  let e := cell.getD 0
  let world := run_on_insert sp.on_insert e world
  if is_init then
    let world := attach_observers sp.observer_fns e world
    let ws := fire_on_add sp.on_add e world
    (ws.1, cell, false, ws.2)
  else
    (world, cell, is_init, sp.on_add)

/-- The nearest-composed-ancestor context (`SpawnContext` in the source). -/
structure SpawnContext where
  parent_entity : Entity
  deriving DecidableEq, Repr

/-- The closure `Spawn::compose` hands to `use_provider`: if no explicit
target is configured and an ancestor context is available, attach the bound
entity as a child of the ancestor; in every case publish a new context
whose parent entity is the bound entity. -/
def provider_closure (sp : Spawn C) (spawn_cx : Option SpawnContext) (e : Entity)
    (world : World) : World × SpawnContext :=
  let world :=
    if sp.target.isNone then
      match spawn_cx with
      | some pcx => { world with trace := world.trace ++ [Ev.childAdded pcx.parent_entity e] }
      | none => world
    else world
  (world, ⟨e⟩)

/-- Modelled from the spec: the per-scope state that the scoped-state
primitives (`use_ref`, `use_bundle_inner`, `use_provider`), which are not
part of `src/ecs/spawn.rs`, keep alive for one composed `Spawn` instance
across re-evaluations — lazily-initialized stable storage surviving
re-evaluations.  `sp` is the composable value (its `on_add` cell is the
only part `compose` mutates), `is_initial` the `use_ref` flag, `cell` the
cached entity slot of `use_bundle_inner`, `provided` the context published
by `use_provider` (its initializer runs on the first composition only),
and `guard_ref` the guard captured by `use_ref` for the teardown hook. -/
structure Instance (C : Type) where
  sp : Spawn C
  is_initial : Bool
  cell : Option Entity
  provided : Option SpawnContext
  guard_ref : Option GuardId

/-- Modelled from the spec: the state of a scope that has never been
evaluated — every lazily-initialized slot still empty, the initial flag
about to be initialized `true`. -/
def Instance.init (s : Spawn C) : Instance C :=
  ⟨s, true, none, none, none⟩

/-- One evaluation pass of `Spawn::compose` for a composed instance:
read the ambient ancestor context, run the bundle closure against the
world and the cached cell, run the provider closure if the provider slot is
still uninitialized, and capture the guard for the teardown hook if not yet
captured.  The once-only initialization of `provided` and `guard_ref` is
modelled from the spec of the scoped-state primitives. -/
def composeStep (spawn_cx : Option SpawnContext) (inst : Instance C) (world : World) :
    Instance C × World :=
  match bundle_closure inst.sp inst.is_initial world inst.cell with
  | (world, cell, is_init, slot) =>
    let e := cell.getD 0
    match inst.provided with
    | some p =>
      (⟨{ inst.sp with on_add := slot }, is_init, cell, some p,
        some (inst.guard_ref.getD inst.sp.observer_guard)⟩, world)
    | none =>
      match provider_closure inst.sp spawn_cx e world with
      | (world, p) =>
        (⟨{ inst.sp with on_add := slot }, is_init, cell, some p,
          some (inst.guard_ref.getD inst.sp.observer_guard)⟩, world)

/-- Modelled from the spec: the scope's teardown hook (`use_drop`), invoked
exactly once when the scope is permanently discarded; it sets the guard
captured at first composition to `false`. -/
def teardown (inst : Instance C) (env : GuardEnv) : GuardEnv :=
  match inst.guard_ref with
  | some g => env.write g false
  | none => env

/-- Modelled from the spec: `n` successive re-evaluations of the same
composed instance under a fixed ambient ancestor context. -/
def runN (spawn_cx : Option SpawnContext) : Nat → Instance C → World → Instance C × World
  | 0, inst, world => (inst, world)
  | n + 1, inst, world =>
    let r := composeStep spawn_cx inst world
    runN spawn_cx n r.1 r.2

/-- Trace fragment produced by the insert-hook loop. -/
def hookTr (sp : Spawn C) (e : Entity) : List Ev :=
  sp.on_insert.map fun h => Ev.onInsertRun h e

/-- Trace fragment produced by the observer-attachment loop. -/
def attachTr (sp : Spawn C) (e : Entity) : List Ev :=
  sp.observer_fns.map fun r => Ev.observerAttached r.obs e

/-- Trace fragment produced by firing the one-shot `on_add` slot. -/
def onAddTr (slot : Option Nat) (e : Entity) : List Ev :=
  match slot with
  | some hook => [Ev.onAddRun hook e]
  | none => []

/-- Trace fragment produced by the auto-parenting branch of the provider
closure. -/
def childTr (tgt : Option Entity) (pc : Option SpawnContext) (e : Entity) : List Ev :=
  match tgt, pc with
  | none, some p => [Ev.childAdded p.parent_entity e]
  | _, _ => []

/-- The repeated trace fragment of `m` non-initial re-evaluations. -/
def repTr (m : Nat) (u : List Ev) : List Ev :=
  match m with
  | 0 => []
  | m + 1 => u ++ repTr m u

/-- The instance state after the first evaluation has bound entity `e`:
the `on_add` slot has been emptied, the initial flag cleared, the cell
cached, the context published, and the guard captured. -/
def boundInst (s : Spawn C) (e : Entity) : Instance C :=
  ⟨{ s with on_add := none }, false, some e, some ⟨e⟩, some s.observer_guard⟩

/-- Recognizer for creation events. -/
def isCreated : Ev → Bool
  | Ev.created _ _ => true
  | _ => false

/-- Recognizer for in-place update events. -/
def isUpdated : Ev → Bool
  | Ev.updated _ _ => true
  | _ => false

/-- Recognizer for hierarchy-attachment events. -/
def isChildAdded : Ev → Bool
  | Ev.childAdded _ _ => true
  | _ => false

/-- Recognizer for firings of a one-shot `on_add` callback. -/
def isOnAdd : Ev → Bool
  | Ev.onAddRun _ _ => true
  | _ => false

/-- Recognizer for firings of the one-shot callback labelled `l`. -/
def isOnAddOf (l : Nat) : Ev → Bool
  | Ev.onAddRun h _ => h == l
  | _ => false

/-- Recognizer for a creation or update aimed at an entity other than `k`. -/
def strayCU (k : Entity) : Ev → Bool
  | Ev.created e _ => e != k
  | Ev.updated e _ => e != k
  | _ => false

/-- Concrete builder chain used to test the first-evaluation hook order:
bundle `10`, insert hooks `0` then `1`, one-shot callback `2`, observer `3`. -/
def c3spawn : Spawn Unit :=
  ((((spawn 10 ⟨[]⟩).1.onInsertPush 0).onInsertPush 1).on_spawn 2).observe 3

/-- An untargeted `Spawn` over bundle `bundle` with the given observer,
one-shot and insert-hook registries and guard — the general shape a
builder chain starting from `spawn` produces. -/
def spawnWith (bundle : Nat) (obs : List ObserverRecord) (onAdd : Option Nat)
    (hooks : List Nat) (g : GuardId) : Spawn Unit :=
  ⟨spawn_fn_of bundle, (), none, obs, onAdd, hooks, g⟩

/-- Builder chain `spawn(5).observe(7).content(())` together with its guard
heap: the observer is registered BEFORE the `content` call. -/
def c1pair : Spawn Unit × GuardEnv :=
  ((spawn 5 ⟨[]⟩).1.observe 7).setContent () (spawn 5 ⟨[]⟩).2

/-- One composition of the `c1pair` value in a fresh world. -/
def c1run : Instance Unit × World :=
  composeStep none (Instance.init c1pair.1) (World.init 0)

/-- The guard heap after the composed `c1pair` scope is torn down. -/
def c1env : GuardEnv :=
  teardown c1run.1 c1pair.2

/-- Builder chain `spawn(0).content(())` together with its guard heap. -/
def c2pair : Spawn Unit × GuardEnv :=
  (spawn 0 ⟨[]⟩).1.setContent () (spawn 0 ⟨[]⟩).2

/-- The insert-hook loop only appends its events to the trace. -/
theorem run_on_insert_eq (hooks : List Nat) (e : Entity) :
    ∀ w : World, run_on_insert hooks e w =
      { w with trace := w.trace ++ hooks.map fun h => Ev.onInsertRun h e } := by
  induction hooks with
  | nil => intro w; simp [run_on_insert]
  | cons h t ih =>
    intro w
    have hstep : run_on_insert (h :: t) e w
        = run_on_insert t e { w with trace := w.trace ++ [Ev.onInsertRun h e] } := rfl
    rw [hstep, ih]
    simp

/-- The observer-attachment loop appends the registrations and the
corresponding trace events. -/
theorem attach_observers_eq (obs : List ObserverRecord) (e : Entity) :
    ∀ w : World, attach_observers obs e w =
      { w with
          attached := w.attached ++ obs.map fun r => (e, r),
          trace := w.trace ++ obs.map fun r => Ev.observerAttached r.obs e } := by
  induction obs with
  | nil => intro w; simp [attach_observers]
  | cons r t ih =>
    intro w
    have hstep : attach_observers (r :: t) e w
        = attach_observers t e
            { w with
                attached := w.attached ++ [(e, r)],
                trace := w.trace ++ [Ev.observerAttached r.obs e] } := rfl
    rw [hstep, ih]
    simp

/-- Firing the one-shot slot appends its trace fragment and empties the
slot. -/
theorem fire_on_add_eq (slot : Option Nat) (e : Entity) (w : World) :
    fire_on_add slot e w = ({ w with trace := w.trace ++ onAddTr slot e }, none) := by
  cases slot <;> simp [fire_on_add, onAddTr]

/-- The provider closure appends the auto-parenting trace fragment and
publishes the bound entity as the new ancestor context. -/
theorem provider_closure_eq (sp : Spawn C) (pc : Option SpawnContext) (e : Entity)
    (w : World) :
    provider_closure sp pc e w
      = ({ w with trace := w.trace ++ childTr sp.target pc e }, ⟨e⟩) := by
  cases htgt : sp.target <;> cases pc <;>
    simp [provider_closure, childTr, htgt]

/-- The bundle closure on the initial pass with an empty cell and no
explicit target: create, run insert hooks, attach observers, fire the
one-shot slot. -/
theorem bundle_closure_init_none (s : Spawn C) (bundle : Nat) (w : World)
    (hfn : s.spawn_fn = spawn_fn_of bundle) (htgt : s.target = none) :
    bundle_closure s true w none =
      ({ w with
          nextId := w.nextId + 1,
          attached := w.attached ++ s.observer_fns.map fun r => (w.nextId, r),
          trace := w.trace ++
            (Ev.created w.nextId bundle ::
              (hookTr s w.nextId ++ attachTr s w.nextId ++ onAddTr s.on_add w.nextId)) },
       some w.nextId, false, none) := by
  simp [bundle_closure, hfn, htgt, spawn_fn_of, run_on_insert_eq, attach_observers_eq,
    fire_on_add_eq, hookTr, attachTr]

/-- The bundle closure on the initial pass with an explicit target `t`:
the cell is forced to `t` whatever it held, the entity is updated in place,
and no entity is created. -/
theorem bundle_closure_init_some (s : Spawn C) (bundle : Nat) (t : Entity) (w : World)
    (c0 : Option Entity)
    (hfn : s.spawn_fn = spawn_fn_of bundle) (htgt : s.target = some t) :
    bundle_closure s true w c0 =
      ({ w with
          attached := w.attached ++ s.observer_fns.map fun r => (t, r),
          trace := w.trace ++
            (Ev.updated t bundle ::
              (hookTr s t ++ attachTr s t ++ onAddTr s.on_add t)) },
       some t, false, none) := by
  simp [bundle_closure, hfn, htgt, spawn_fn_of, run_on_insert_eq, attach_observers_eq,
    fire_on_add_eq, hookTr, attachTr]

/-- The bundle closure on a non-initial pass with the cell caching `e`
(either no target is configured, or the target is `e` itself): update in
place, run insert hooks, touch nothing else. -/
theorem bundle_closure_update (s : Spawn C) (bundle : Nat) (e : Entity) (w : World)
    (hfn : s.spawn_fn = spawn_fn_of bundle)
    (htgt : s.target = none ∨ s.target = some e) :
    bundle_closure s false w (some e) =
      ({ w with trace := w.trace ++ (Ev.updated e bundle :: hookTr s e) },
       some e, false, s.on_add) := by
  rcases htgt with h | h <;>
    simp [bundle_closure, hfn, h, spawn_fn_of, run_on_insert_eq, hookTr]

/-- First evaluation of a never-composed instance with no explicit target:
one creation at the world's next id, hooks, attachments, one-shot firing,
auto-parenting when an ancestor context is present, context publication. -/
theorem composeStep_init_none (s : Spawn C) (bundle k : Nat) (pc : Option SpawnContext)
    (hfn : s.spawn_fn = spawn_fn_of bundle) (htgt : s.target = none) :
    composeStep pc (Instance.init s) (World.init k)
      = (boundInst s k,
         ⟨k + 1, s.observer_fns.map fun r => (k, r),
          Ev.created k bundle ::
            (hookTr s k ++ attachTr s k ++ onAddTr s.on_add k ++ childTr none pc k)⟩) := by
  have hb := bundle_closure_init_none s bundle (World.init k) hfn htgt
  simp only [World.init] at hb
  simp [composeStep, Instance.init, World.init, boundInst, hb,
    provider_closure_eq, htgt]

/-- First evaluation of a never-composed instance with explicit target `t`:
an in-place update of `t`, hooks, attachments, one-shot firing, no
auto-parenting, context publication, and no entity allocated. -/
theorem composeStep_init_some (s : Spawn C) (bundle k : Nat) (t : Entity)
    (pc : Option SpawnContext)
    (hfn : s.spawn_fn = spawn_fn_of bundle) (htgt : s.target = some t) :
    composeStep pc (Instance.init s) (World.init k)
      = (boundInst s t,
         ⟨k, s.observer_fns.map fun r => (t, r),
          Ev.updated t bundle ::
            (hookTr s t ++ attachTr s t ++ onAddTr s.on_add t)⟩) := by
  have hb := bundle_closure_init_some s bundle t (World.init k) none hfn htgt
  simp only [World.init] at hb
  simp [composeStep, Instance.init, World.init, boundInst, hb,
    provider_closure_eq, htgt, childTr]

/-- A non-initial evaluation of a bound instance: update in place, run the
insert hooks, change nothing else. -/
theorem composeStep_bound (s : Spawn C) (bundle : Nat) (e : Entity)
    (pc : Option SpawnContext) (w : World)
    (hfn : s.spawn_fn = spawn_fn_of bundle)
    (htgt : s.target = none ∨ s.target = some e) :
    composeStep pc (boundInst s e) w
      = (boundInst s e,
         { w with trace := w.trace ++ (Ev.updated e bundle :: hookTr s e) }) := by
  simp [composeStep, boundInst,
    bundle_closure_update ({ s with on_add := none }) bundle e w hfn htgt, hookTr]

/-- Iterating non-initial evaluations of a bound instance appends one
update fragment per evaluation and leaves the instance state fixed. -/
theorem runN_bound (s : Spawn C) (bundle : Nat) (e : Entity) (pc : Option SpawnContext)
    (hfn : s.spawn_fn = spawn_fn_of bundle)
    (htgt : s.target = none ∨ s.target = some e) :
    ∀ (m : Nat) (w : World),
      runN pc m (boundInst s e) w
        = (boundInst s e,
           { w with trace := w.trace ++ repTr m (Ev.updated e bundle :: hookTr s e) }) := by
  intro m
  induction m with
  | zero => intro w; simp [runN, repTr]
  | succ m ih =>
    intro w
    have hstep : runN pc (m + 1) (boundInst s e) w
        = runN pc m (composeStep pc (boundInst s e) w).1
            (composeStep pc (boundInst s e) w).2 := rfl
    rw [hstep, composeStep_bound s bundle e pc w hfn htgt]
    rw [ih]
    simp [repTr, List.append_assoc]

/-- Shape of a whole run of `m + 1` evaluations with no explicit target:
the first pass creates entity `k` and performs the initial-only work, each
of the remaining `m` passes appends one update fragment. -/
theorem runN_untargeted (s : Spawn C) (bundle k : Nat) (pc : Option SpawnContext)
    (hfn : s.spawn_fn = spawn_fn_of bundle) (htgt : s.target = none) (m : Nat) :
    runN pc (m + 1) (Instance.init s) (World.init k)
      = (boundInst s k,
         ⟨k + 1, s.observer_fns.map fun r => (k, r),
          (Ev.created k bundle ::
            (hookTr s k ++ attachTr s k ++ onAddTr s.on_add k ++ childTr none pc k))
          ++ repTr m (Ev.updated k bundle :: hookTr s k)⟩) := by
  have hstep : runN pc (m + 1) (Instance.init s) (World.init k)
      = runN pc m (composeStep pc (Instance.init s) (World.init k)).1
          (composeStep pc (Instance.init s) (World.init k)).2 := rfl
  rw [hstep, composeStep_init_none s bundle k pc hfn htgt]
  rw [runN_bound s bundle k pc hfn (Or.inl htgt) m]

/-- Shape of a whole run of `m + 1` evaluations with explicit target `t`:
every pass updates `t` in place, the initial-only work happens on the first
pass, no entity is ever allocated, and no auto-parenting occurs. -/
theorem runN_targeted (s : Spawn C) (bundle k : Nat) (t : Entity)
    (pc : Option SpawnContext)
    (hfn : s.spawn_fn = spawn_fn_of bundle) (htgt : s.target = some t) (m : Nat) :
    runN pc (m + 1) (Instance.init s) (World.init k)
      = (boundInst s t,
         ⟨k, s.observer_fns.map fun r => (t, r),
          (Ev.updated t bundle ::
            (hookTr s t ++ attachTr s t ++ onAddTr s.on_add t))
          ++ repTr m (Ev.updated t bundle :: hookTr s t)⟩) := by
  have hstep : runN pc (m + 1) (Instance.init s) (World.init k)
      = runN pc m (composeStep pc (Instance.init s) (World.init k)).1
          (composeStep pc (Instance.init s) (World.init k)).2 := rfl
  rw [hstep, composeStep_init_some s bundle k t pc hfn htgt]
  rw [runN_bound s bundle t pc hfn (Or.inr htgt) m]

/-- Counting over the repeated update fragment. -/
theorem countP_repTr (p : Ev → Bool) (u : List Ev) :
    ∀ m : Nat, (repTr m u).countP p = m * u.countP p := by
  intro m
  induction m with
  | zero => simp [repTr]
  | succ m ih =>
    simp [repTr, List.countP_append, ih, Nat.succ_mul]
    omega

/-- A predicate false on all insert-hook events counts zero over the
insert-hook fragment. -/
theorem countP_hookTr_zero (p : Ev → Bool) (s : Spawn C) (e : Entity)
    (hp : ∀ h, p (Ev.onInsertRun h e) = false) :
    (hookTr s e).countP p = 0 := by
  apply List.countP_eq_zero.mpr
  intro a ha
  simp only [hookTr, List.mem_map] at ha
  obtain ⟨h, _, rfl⟩ := ha
  simp [hp]

/-- A predicate false on all attachment events counts zero over the
attachment fragment. -/
theorem countP_attachTr_zero (p : Ev → Bool) (s : Spawn C) (e : Entity)
    (hp : ∀ o, p (Ev.observerAttached o e) = false) :
    (attachTr s e).countP p = 0 := by
  apply List.countP_eq_zero.mpr
  intro a ha
  simp only [attachTr, List.mem_map] at ha
  obtain ⟨r, _, rfl⟩ := ha
  simp [hp]

/-- C4: for every N ≥ 1, evaluating the same untargeted `Spawn` instance
N times performs exactly one entity creation (on the first evaluation,
caching the fresh identifier `k` in the slot) and N − 1 in-place updates,
and every creation or update in the run touches that same entity. -/
theorem C4_create_once {C : Type} (s : Spawn C) (bundle k n : Nat)
    (pc : Option SpawnContext)
    (hfn : s.spawn_fn = spawn_fn_of bundle) (htgt : s.target = none) (hn : 1 ≤ n) :
    (runN pc n (Instance.init s) (World.init k)).2.trace.countP isCreated = 1
    ∧ (runN pc n (Instance.init s) (World.init k)).2.trace.countP isUpdated = n - 1
    ∧ (runN pc n (Instance.init s) (World.init k)).2.trace.countP (strayCU k) = 0
    ∧ (runN pc n (Instance.init s) (World.init k)).1.cell = some k := by
  obtain ⟨m, rfl⟩ : ∃ m, n = m + 1 := ⟨n - 1, (Nat.succ_pred_eq_of_pos hn).symm⟩
  rw [runN_untargeted s bundle k pc hfn htgt m]
  have hOnAdd : ∀ p : Ev → Bool, (∀ h, p (Ev.onAddRun h k) = false) →
      (onAddTr s.on_add k).countP p = 0 := by
    intro p hp
    cases s.on_add <;> simp [onAddTr, hp]
  have hChild : ∀ p : Ev → Bool, (∀ q c, p (Ev.childAdded q c) = false) →
      (childTr none pc k).countP p = 0 := by
    intro p hp
    cases pc <;> simp [childTr, hp]
  refine ⟨?_, ?_, ?_, rfl⟩
  · simp [List.countP_append, List.countP_cons, countP_repTr,
      countP_hookTr_zero isCreated s k (fun h => rfl),
      countP_attachTr_zero isCreated s k (fun o => rfl),
      hOnAdd isCreated (fun h => rfl), hChild isCreated (fun q c => rfl), isCreated]
  · simp [List.countP_append, List.countP_cons, countP_repTr,
      countP_hookTr_zero isUpdated s k (fun h => rfl),
      countP_attachTr_zero isUpdated s k (fun o => rfl),
      hOnAdd isUpdated (fun h => rfl), hChild isUpdated (fun q c => rfl), isUpdated]
  · simp [List.countP_append, List.countP_cons, countP_repTr,
      countP_hookTr_zero (strayCU k) s k (fun h => rfl),
      countP_attachTr_zero (strayCU k) s k (fun o => rfl),
      hOnAdd (strayCU k) (fun h => rfl), hChild (strayCU k) (fun q c => rfl), strayCU]

/-- Witness for C4 at bundle 0, fresh world, three evaluations. -/
theorem C4_create_once_witness :
    (runN none 3 (Instance.init (spawn 0 ⟨[]⟩).1) (World.init 0)).2.trace.countP isCreated = 1
    ∧ (runN none 3 (Instance.init (spawn 0 ⟨[]⟩).1) (World.init 0)).2.trace.countP isUpdated = 3 - 1
    ∧ (runN none 3 (Instance.init (spawn 0 ⟨[]⟩).1) (World.init 0)).2.trace.countP (strayCU 0) = 0
    ∧ (runN none 3 (Instance.init (spawn 0 ⟨[]⟩).1) (World.init 0)).1.cell = some 0 :=
  C4_create_once (spawn 0 ⟨[]⟩).1 0 0 3 none rfl rfl (by decide)

/-- C5: a registered one-shot `on_spawn` callback fires exactly once over
any number N ≥ 1 of re-evaluations; afterwards the slot is permanently
empty, and firing an empty slot is a no-op rather than an error. -/
theorem C5_on_spawn_once {C : Type} (s : Spawn C) (bundle k n h : Nat)
    (pc : Option SpawnContext)
    (hfn : s.spawn_fn = spawn_fn_of bundle) (hadd : s.on_add = some h) (hn : 1 ≤ n) :
    (runN pc n (Instance.init s) (World.init k)).2.trace.countP isOnAdd = 1
    ∧ (runN pc n (Instance.init s) (World.init k)).1.sp.on_add = none
    ∧ ∀ (e : Entity) (w : World), fire_on_add none e w = (w, none) := by
  obtain ⟨m, rfl⟩ : ∃ m, n = m + 1 := ⟨n - 1, (Nat.succ_pred_eq_of_pos hn).symm⟩
  cases htgt : s.target with
  | none =>
    rw [runN_untargeted s bundle k pc hfn htgt m]
    refine ⟨?_, rfl, fun e w => rfl⟩
    have hChild : (childTr none pc k).countP isOnAdd = 0 := by
      cases pc <;> simp [childTr, isOnAdd]
    simp [List.countP_append, List.countP_cons, countP_repTr, hadd,
      countP_hookTr_zero isOnAdd s k (fun x => rfl),
      countP_attachTr_zero isOnAdd s k (fun o => rfl), hChild, onAddTr, isOnAdd]
  | some t =>
    rw [runN_targeted s bundle k t pc hfn htgt m]
    refine ⟨?_, rfl, fun e w => rfl⟩
    simp [List.countP_append, List.countP_cons, countP_repTr, hadd,
      countP_hookTr_zero isOnAdd s t (fun x => rfl),
      countP_attachTr_zero isOnAdd s t (fun o => rfl), onAddTr, isOnAdd]

/-- Witness for C5: one-shot callback 5, two evaluations. -/
theorem C5_on_spawn_once_witness :
    (runN none 2 (Instance.init ((spawn 0 ⟨[]⟩).1.on_spawn 5)) (World.init 0)).2.trace.countP
        isOnAdd = 1
    ∧ (runN none 2 (Instance.init ((spawn 0 ⟨[]⟩).1.on_spawn 5)) (World.init 0)).1.sp.on_add
        = none
    ∧ ∀ (e : Entity) (w : World), fire_on_add none e w = (w, none) :=
  C5_on_spawn_once ((spawn 0 ⟨[]⟩).1.on_spawn 5) 0 0 2 5 none rfl rfl (by decide)

/-- C6: with an explicit target, the cached identifier is forced to the
target on every evaluation (the result of the binder closure does not
depend on the previously cached value), so after any number of
re-evaluations the cached identifier equals the target and no entity is
ever allocated for the instance. -/
theorem C6_idempotent_target {C : Type} (s : Spawn C) (bundle k n : Nat) (t : Entity)
    (pc : Option SpawnContext)
    (hfn : s.spawn_fn = spawn_fn_of bundle) (htgt : s.target = some t) (hn : 1 ≤ n) :
    (runN pc n (Instance.init s) (World.init k)).1.cell = some t
    ∧ (runN pc n (Instance.init s) (World.init k)).2.trace.countP isCreated = 0
    ∧ (runN pc n (Instance.init s) (World.init k)).2.nextId = k
    ∧ ∀ (i : Bool) (w : World) (c0 c1 : Option Entity),
        bundle_closure s i w c0 = bundle_closure s i w c1 := by
  obtain ⟨m, rfl⟩ : ∃ m, n = m + 1 := ⟨n - 1, (Nat.succ_pred_eq_of_pos hn).symm⟩
  rw [runN_targeted s bundle k t pc hfn htgt m]
  refine ⟨rfl, ?_, rfl, ?_⟩
  · have hOnAdd : (onAddTr s.on_add t).countP isCreated = 0 := by
      cases s.on_add <;> simp [onAddTr, isCreated]
    simp [List.countP_append, List.countP_cons, countP_repTr,
      countP_hookTr_zero isCreated s t (fun x => rfl),
      countP_attachTr_zero isCreated s t (fun o => rfl), hOnAdd, isCreated]
  · intro i w c0 c1
    simp [bundle_closure, htgt]

/-- Witness for C6: explicit target 42, two evaluations. -/
theorem C6_idempotent_target_witness :
    (runN none 2 (Instance.init ((spawn 0 ⟨[]⟩).1.setTarget 42)) (World.init 0)).1.cell
        = some 42
    ∧ (runN none 2 (Instance.init ((spawn 0 ⟨[]⟩).1.setTarget 42)) (World.init 0)).2.trace.countP
        isCreated = 0
    ∧ (runN none 2 (Instance.init ((spawn 0 ⟨[]⟩).1.setTarget 42)) (World.init 0)).2.nextId = 0
    ∧ ∀ (i : Bool) (w : World) (c0 c1 : Option Entity),
        bundle_closure ((spawn 0 ⟨[]⟩).1.setTarget 42) i w c0
          = bundle_closure ((spawn 0 ⟨[]⟩).1.setTarget 42) i w c1 :=
  C6_idempotent_target ((spawn 0 ⟨[]⟩).1.setTarget 42) 0 0 2 42 none rfl rfl (by decide)

/-- C7: auto-parenting happens exactly when no explicit target is
configured and an ancestor context is available, in which case the bound
entity is attached as a child of the ancestor entity once — on the first
apply only — whatever the number N ≥ 1 of evaluations; in every other
configuration no attachment happens and the run completes normally. -/
theorem C7_auto_parenting {C : Type} (s : Spawn C) (bundle k n : Nat)
    (pc : Option SpawnContext)
    (hfn : s.spawn_fn = spawn_fn_of bundle) (hn : 1 ≤ n) :
    (runN pc n (Instance.init s) (World.init k)).2.trace.countP isChildAdded
      = (match s.target, pc with
         | none, some _ => 1
         | _, _ => 0)
    ∧ ∀ p : SpawnContext, s.target = none → pc = some p →
        Ev.childAdded p.parent_entity k ∈ (runN pc n (Instance.init s) (World.init k)).2.trace := by
  obtain ⟨m, rfl⟩ : ∃ m, n = m + 1 := ⟨n - 1, (Nat.succ_pred_eq_of_pos hn).symm⟩
  cases htgt : s.target with
  | none =>
    rw [runN_untargeted s bundle k pc hfn htgt m]
    have hOnAdd : (onAddTr s.on_add k).countP isChildAdded = 0 := by
      cases s.on_add <;> simp [onAddTr, isChildAdded]
    constructor
    · cases pc <;>
        simp [List.countP_append, List.countP_cons, countP_repTr,
          countP_hookTr_zero isChildAdded s k (fun x => rfl),
          countP_attachTr_zero isChildAdded s k (fun o => rfl), hOnAdd,
          childTr, isChildAdded]
    · intro p hp hpc
      subst hpc
      simp [childTr]
  | some t =>
    rw [runN_targeted s bundle k t pc hfn htgt m]
    have hOnAdd : (onAddTr s.on_add t).countP isChildAdded = 0 := by
      cases s.on_add <;> simp [onAddTr, isChildAdded]
    constructor
    · simp [List.countP_append, List.countP_cons, countP_repTr,
        countP_hookTr_zero isChildAdded s t (fun x => rfl),
        countP_attachTr_zero isChildAdded s t (fun o => rfl), hOnAdd, isChildAdded]
    · intro p hp
      simp [htgt] at hp

/-- Witness for C7: ancestor context with parent 9, two evaluations. -/
theorem C7_auto_parenting_witness :
    (runN (some ⟨9⟩) 2 (Instance.init (spawn 0 ⟨[]⟩).1) (World.init 0)).2.trace.countP
        isChildAdded
      = (match ((spawn 0 ⟨[]⟩).1).target, (some (⟨9⟩ : SpawnContext) : Option SpawnContext) with
         | none, some _ => 1
         | _, _ => 0)
    ∧ ∀ p : SpawnContext, ((spawn 0 ⟨[]⟩).1).target = none
        → (some (⟨9⟩ : SpawnContext) : Option SpawnContext) = some p →
        Ev.childAdded p.parent_entity 0
          ∈ (runN (some ⟨9⟩) 2 (Instance.init (spawn 0 ⟨[]⟩).1) (World.init 0)).2.trace :=
  C7_auto_parenting (spawn 0 ⟨[]⟩).1 0 0 2 (some ⟨9⟩) rfl (by decide)

/-- C8: after any number N ≥ 1 of evaluations the instance has published an
ancestor context whose parent entity is its own bound entity — also when an
explicit target was configured, in which case the published parent is the
target itself. -/
theorem C8_publishes_context {C : Type} (s : Spawn C) (bundle k n : Nat)
    (pc : Option SpawnContext)
    (hfn : s.spawn_fn = spawn_fn_of bundle) (hn : 1 ≤ n) :
    (runN pc n (Instance.init s) (World.init k)).1.provided
      = some ⟨((runN pc n (Instance.init s) (World.init k)).1.cell).getD 0⟩
    ∧ (∀ t : Entity, s.target = some t →
        (runN pc n (Instance.init s) (World.init k)).1.provided = some ⟨t⟩)
    ∧ (s.target = none →
        (runN pc n (Instance.init s) (World.init k)).1.provided = some ⟨k⟩) := by
  obtain ⟨m, rfl⟩ : ∃ m, n = m + 1 := ⟨n - 1, (Nat.succ_pred_eq_of_pos hn).symm⟩
  cases htgt : s.target with
  | none =>
    rw [runN_untargeted s bundle k pc hfn htgt m]
    refine ⟨rfl, ?_, fun hx => rfl⟩
    intro t ht
    exact absurd ht (by simp)
  | some t =>
    rw [runN_targeted s bundle k t pc hfn htgt m]
    refine ⟨rfl, ?_, ?_⟩
    · intro u hu
      have : t = u := by injection hu
      subst this
      rfl
    · intro hx
      exact absurd hx (by simp)

/-- Witness for C8: explicit target 42, ancestor context present, two
evaluations. -/
theorem C8_publishes_context_witness :
    (runN (some ⟨9⟩) 2 (Instance.init ((spawn 0 ⟨[]⟩).1.setTarget 42)) (World.init 0)).1.provided
      = some ⟨((runN (some ⟨9⟩) 2 (Instance.init ((spawn 0 ⟨[]⟩).1.setTarget 42))
          (World.init 0)).1.cell).getD 0⟩
    ∧ (∀ t : Entity, ((spawn 0 ⟨[]⟩).1.setTarget 42).target = some t →
        (runN (some ⟨9⟩) 2 (Instance.init ((spawn 0 ⟨[]⟩).1.setTarget 42))
            (World.init 0)).1.provided = some ⟨t⟩)
    ∧ (((spawn 0 ⟨[]⟩).1.setTarget 42).target = none →
        (runN (some ⟨9⟩) 2 (Instance.init ((spawn 0 ⟨[]⟩).1.setTarget 42))
            (World.init 0)).1.provided = some ⟨0⟩) :=
  C8_publishes_context ((spawn 0 ⟨[]⟩).1.setTarget 42) 0 0 2 (some ⟨9⟩) rfl (by decide)

/-- Appending one more non-initial evaluation extends the repeated
fragment on the right. -/
theorem repTr_succ_back (u : List Ev) : ∀ m : Nat, repTr (m + 1) u = repTr m u ++ u := by
  intro m
  induction m with
  | zero => simp [repTr]
  | succ m ih =>
    calc repTr (m + 1 + 1) u = u ++ repTr (m + 1) u := rfl
      _ = u ++ (repTr m u ++ u) := by rw [ih]
      _ = repTr (m + 1) u ++ u := by simp [repTr, List.append_assoc]

/-- C3 counterexample: with insert hooks 0 and 1, one-shot callback 2 and
observer 3, the first evaluation runs the hooks, then ATTACHES THE
OBSERVER, and only then fires the one-shot callback — not the claimed
order hooks, one-shot callback, observer attachments. -/
theorem C3_hook_order_counterexample :
    (runN none 1 (Instance.init c3spawn) (World.init 0)).2.trace
      = [Ev.created 0 10, Ev.onInsertRun 0 0, Ev.onInsertRun 1 0,
         Ev.observerAttached 3 0, Ev.onAddRun 2 0]
    ∧ (runN none 1 (Instance.init c3spawn) (World.init 0)).2.trace
      ≠ [Ev.created 0 10, Ev.onInsertRun 0 0, Ev.onInsertRun 1 0,
         Ev.onAddRun 2 0, Ev.observerAttached 3 0] := by
  refine ⟨by decide, by decide⟩

/-- C3 (amended): with repeatable hooks A, B, one-shot callback C and any
registered observers, the first evaluation performs create, A, B, the
observer attachments in registration order, and then C; every subsequent
evaluation appends only update, A, B. -/
theorem C3_hook_order (bundle k a b c g : Nat) (obs : List ObserverRecord) :
    (runN none 1 (Instance.init (spawnWith bundle obs (some c) [a, b] g))
        (World.init k)).2.trace
      = Ev.created k bundle :: Ev.onInsertRun a k :: Ev.onInsertRun b k ::
          ((obs.map fun r => Ev.observerAttached r.obs k) ++ [Ev.onAddRun c k])
    ∧ ∀ m : Nat,
        (runN none (m + 2) (Instance.init (spawnWith bundle obs (some c) [a, b] g))
            (World.init k)).2.trace
          = (runN none (m + 1) (Instance.init (spawnWith bundle obs (some c) [a, b] g))
              (World.init k)).2.trace
            ++ [Ev.updated k bundle, Ev.onInsertRun a k, Ev.onInsertRun b k] := by
  constructor
  · rw [runN_untargeted (spawnWith bundle obs (some c) [a, b] g) bundle k none rfl rfl 0]
    simp [spawnWith, hookTr, attachTr, onAddTr, childTr, repTr]
  · intro m
    rw [runN_untargeted (spawnWith bundle obs (some c) [a, b] g) bundle k none rfl rfl (m + 1),
      runN_untargeted (spawnWith bundle obs (some c) [a, b] g) bundle k none rfl rfl m,
      repTr_succ_back]
    simp [spawnWith, hookTr, attachTr, onAddTr, childTr, List.append_assoc]

/-- C10: a second `on_spawn` call overwrites the stored one-shot callback,
so only the last registered callback fires on the first evaluation and the
earlier one never fires. -/
theorem C10_on_spawn_overwrites {C : Type} (s : Spawn C) (bundle k n l1 l2 : Nat)
    (pc : Option SpawnContext)
    (hfn : s.spawn_fn = spawn_fn_of bundle) (htgt : s.target = none)
    (h12 : l1 ≠ l2) (hn : 1 ≤ n) :
    ((s.on_spawn l1).on_spawn l2).on_add = some l2
    ∧ (runN pc n (Instance.init ((s.on_spawn l1).on_spawn l2))
        (World.init k)).2.trace.countP (isOnAddOf l2) = 1
    ∧ (runN pc n (Instance.init ((s.on_spawn l1).on_spawn l2))
        (World.init k)).2.trace.countP (isOnAddOf l1) = 0 := by
  obtain ⟨m, rfl⟩ : ∃ m, n = m + 1 := ⟨n - 1, (Nat.succ_pred_eq_of_pos hn).symm⟩
  rw [runN_untargeted ((s.on_spawn l1).on_spawn l2) bundle k pc hfn htgt m]
  have hChild : ∀ l : Nat, (childTr none pc k).countP (isOnAddOf l) = 0 := by
    intro l
    cases pc <;> simp [childTr, isOnAddOf]
  have h21 : (l2 == l1) = false := by
    simp only [beq_eq_false_iff_ne]
    exact fun hx => h12 hx.symm
  have hh : hookTr ((s.on_spawn l1).on_spawn l2) k = hookTr s k := rfl
  have ha : attachTr ((s.on_spawn l1).on_spawn l2) k = attachTr s k := rfl
  have ho : ((s.on_spawn l1).on_spawn l2).on_add = some l2 := rfl
  refine ⟨rfl, ?_, ?_⟩
  · simp [hh, ha, ho, List.countP_append, List.countP_cons, countP_repTr,
      countP_hookTr_zero (isOnAddOf l2) s k (fun x => rfl),
      countP_attachTr_zero (isOnAddOf l2) s k (fun o => rfl), hChild, onAddTr,
      isOnAddOf]
  · simp [hh, ha, ho, List.countP_append, List.countP_cons, countP_repTr,
      countP_hookTr_zero (isOnAddOf l1) s k (fun x => rfl),
      countP_attachTr_zero (isOnAddOf l1) s k (fun o => rfl), hChild, onAddTr,
      isOnAddOf, h21]

/-- Witness for C10: callbacks 4 then 5 on the same value, one evaluation. -/
theorem C10_on_spawn_overwrites_witness :
    (((spawn 0 ⟨[]⟩).1.on_spawn 4).on_spawn 5).on_add = some 5
    ∧ (runN none 1 (Instance.init (((spawn 0 ⟨[]⟩).1.on_spawn 4).on_spawn 5))
        (World.init 0)).2.trace.countP (isOnAddOf 5) = 1
    ∧ (runN none 1 (Instance.init (((spawn 0 ⟨[]⟩).1.on_spawn 4).on_spawn 5))
        (World.init 0)).2.trace.countP (isOnAddOf 4) = 0 :=
  C10_on_spawn_overwrites (spawn 0 ⟨[]⟩).1 0 0 1 4 5 none rfl rfl (by decide) (by decide)

/-- A freshly allocated guard cell reads back its initial value. -/
theorem GuardEnv_alloc_read (env : GuardEnv) (b : Bool) :
    ((env.alloc b).1).read (env.alloc b).2 = b := by
  simp [GuardEnv.alloc, GuardEnv.read, List.getD_append_right]

/-- C9: `content` replaces the stored observer guard by a fresh guard that
reads `false`, while the previously registered observer closures (with
their old guard) are carried over unchanged; an observer registered after
`content` captures the new guard, is attached as such on the first
evaluation, and its very first dispatched invocation panics although the
scope has not been torn down. -/
theorem C9_content_replaces_guard {C D : Type} (s : Spawn C) (c : D) (env : GuardEnv)
    (bundle o k : Nat) (pc : Option SpawnContext)
    (hfn : s.spawn_fn = spawn_fn_of bundle) (htgt : s.target = none) :
    (s.setContent c env).2.read (s.setContent c env).1.observer_guard = false
    ∧ (s.setContent c env).1.observer_fns = s.observer_fns
    ∧ ((s.setContent c env).1.observe o).observer_fns
        = s.observer_fns ++ [⟨o, (s.setContent c env).1.observer_guard⟩]
    ∧ (composeStep pc (Instance.init ((s.setContent c env).1.observe o))
          (World.init k)).2.attached
        = (s.observer_fns
            ++ [ObserverRecord.mk o (s.setContent c env).1.observer_guard]).map
            (fun r => (k, r))
    ∧ trampoline ⟨o, (s.setContent c env).1.observer_guard⟩ (s.setContent c env).2
        = ObserverOutcome.panicked := by
  have hread : (s.setContent c env).2.read (s.setContent c env).1.observer_guard = false :=
    GuardEnv_alloc_read env false
  refine ⟨hread, rfl, rfl, ?_, ?_⟩
  · rw [composeStep_init_none ((s.setContent c env).1.observe o) bundle k pc hfn htgt]
    rfl
  · simp [trampoline, hread]

/-- Witness for C9 with bundle 4, observer 9, fresh guard heap. -/
theorem C9_content_replaces_guard_witness :
    ((spawn 4 ⟨[]⟩).1.setContent () (spawn 4 ⟨[]⟩).2).2.read
        ((spawn 4 ⟨[]⟩).1.setContent () (spawn 4 ⟨[]⟩).2).1.observer_guard = false
    ∧ ((spawn 4 ⟨[]⟩).1.setContent () (spawn 4 ⟨[]⟩).2).1.observer_fns
        = ((spawn 4 ⟨[]⟩).1).observer_fns
    ∧ (((spawn 4 ⟨[]⟩).1.setContent () (spawn 4 ⟨[]⟩).2).1.observe 9).observer_fns
        = ((spawn 4 ⟨[]⟩).1).observer_fns
          ++ [⟨9, ((spawn 4 ⟨[]⟩).1.setContent () (spawn 4 ⟨[]⟩).2).1.observer_guard⟩]
    ∧ (composeStep none
          (Instance.init (((spawn 4 ⟨[]⟩).1.setContent () (spawn 4 ⟨[]⟩).2).1.observe 9))
          (World.init 0)).2.attached
        = (((spawn 4 ⟨[]⟩).1).observer_fns
            ++ [ObserverRecord.mk 9
                ((spawn 4 ⟨[]⟩).1.setContent () (spawn 4 ⟨[]⟩).2).1.observer_guard]).map
            (fun r => ((0 : Entity), r))
    ∧ trampoline ⟨9, ((spawn 4 ⟨[]⟩).1.setContent () (spawn 4 ⟨[]⟩).2).1.observer_guard⟩
          ((spawn 4 ⟨[]⟩).1.setContent () (spawn 4 ⟨[]⟩).2).2
        = ObserverOutcome.panicked :=
  C9_content_replaces_guard (spawn 4 ⟨[]⟩).1 () (spawn 4 ⟨[]⟩).2 4 9 0 none rfl rfl

/-- C1 (code bug exhibit): an observer registered BEFORE a `content` call
keeps the pre-`content` guard, which the scope's teardown hook never
clears: after the scope is composed and torn down, the instance's own
guard reads false, yet the attached observer's trampoline runs the user
observer logic instead of panicking. -/
theorem C1_stale_observer_runs_after_teardown :
    c1run.2.attached = [(0, ⟨7, 0⟩)]
    ∧ c1env.read c1pair.1.observer_guard = false
    ∧ trampoline ⟨7, 0⟩ c1env = ObserverOutcome.ran 7 := by
  decide

/-- C2 (code bug exhibit): the guard of a `Spawn` built by `spawn` starts
true, but `content` replaces it by a freshly allocated guard that starts
FALSE, so the liveness guard of a content-configured instance never holds
the claimed initial value. -/
theorem C2_guard_initialized_false_by_content :
    (spawn 0 ⟨[]⟩).2.read ((spawn 0 ⟨[]⟩).1).observer_guard = true
    ∧ c2pair.2.read c2pair.1.observer_guard = false := by
  decide

end Actuate
